import Mathlib

/-!
Shallow embedding of `twitch_checker.py` (Kai Cenat Live Checker, v2.5).

Conventions of the embedding:
* ISO-8601 timestamp strings are modelled as integer epoch seconds
  (`Int`); the empty string `""` used by the source for "no started_at"
  is modelled as `none`, and `datetime.fromisoformat` as the identity.
* Python's floor division `//` and `divmod` on integers are modelled by
  `Int.fdiv` / `Int.fmod`, which share Python's floor semantics.
* `self.stream_status` is a dict looked up with `.get(username, False)`;
  it is modelled as a total function `String → Bool` whose default value
  is `false`.
* File-system effects (the per-channel history JSON) are modelled by an
  explicit description of what the stored file holds before the call
  (`StoredJournal`) and whether the write succeeds; exceptions that the
  source does not catch are modelled as `Except` errors.
-/

set_option maxRecDepth 100000

namespace TwitchChecker

/-- `StreamInfo` dataclass from the source. -/
structure StreamInfo where
  user_name : String
  user_login : String
  title : String
  game_name : String
  viewer_count : Nat
  started_at : Option Int
  thumbnail_url : String
  is_live : Bool
deriving DecidableEq

/-- The dict written by `log_stream_event` (timestamp, event, title, game, viewers). -/
structure EventRecord where
  timestamp : Int
  event : String
  title : String
  game : String
  viewers : Nat
deriving DecidableEq

/-- `format_uptime` (source lines 221-228).  `started_at` empty returns "0m";
otherwise `h, m = divmod(int(diff.total_seconds() // 60), 60)` and the
result is `f"{h}h {m}m" if h else f"{m}m"`.  `now` stands for
`datetime.now(start.tzinfo)`. -/
def format_uptime (started_at : Option Int) (now : Int) : String :=
  match started_at with
  | none => "0m"
  | some start =>
    let mins : Int := (now - start).fdiv 60
    let h : Int := mins.fdiv 60
    let m : Int := mins.fmod 60
    if h ≠ 0 then toString h ++ "h " ++ toString m ++ "m"
    else toString m ++ "m"

/-- Errors that can escape `log_stream_event` uncaught: an OS-level read
failure (`open` raising outside the `except json.JSONDecodeError`
clause), an `AttributeError` from `existing.append` when the stored JSON
parsed to something that is not a list, or a failure of the final
write. -/
inductive JournalError where
  | readError
  | shapeError
  | writeError
deriving DecidableEq

/-- What the per-channel history file holds when `log_stream_event` runs. -/
inductive StoredJournal where
  /-- `file.exists()` is false. -/
  | missing
  /-- the file exists but `json.load` raises `json.JSONDecodeError`. -/
  | decodeError
  /-- the file exists but opening/reading it raises an OS error. -/
  | osError
  /-- the file parses as JSON that is not a list (no `.append`). -/
  | wrongShape
  /-- the file parses as a JSON list of records. -/
  | valid (records : List EventRecord)
deriving DecidableEq

/-- The read phase of `log_stream_event` (source lines 209-216), followed by
the `existing.append(entry)` attribute access: missing files and JSON
decode errors yield the empty history; OS errors propagate; a non-list
JSON value makes `existing.append` raise. -/
def loadExisting : StoredJournal → Except JournalError (List EventRecord)
  | .missing => .ok []
  | .decodeError => .ok []
  | .osError => .error .readError
  | .wrongShape => .error .shapeError
  | .valid records => .ok records

/-- `existing.append(entry)` followed by `json.dump(existing[-200:], f)`:
the persisted list is the last 200 elements of `existing ++ [entry]`. -/
def appendTruncate (existing : List EventRecord) (entry : EventRecord) : List EventRecord :=
  let appended := existing ++ [entry]
  appended.drop (appended.length - 200)

/-- `log_stream_event` (source lines 197-219), as a function of the
pre-existing file contents and whether the final write succeeds; on
success it returns the list now persisted in the file. -/
def log_stream_event (stored : StoredJournal) (writeOk : Bool) (entry : EventRecord) :
    Except JournalError (List EventRecord) :=
  match loadExisting stored with
  | .error e => .error e
  | .ok existing =>
    if writeOk then .ok (appendTruncate existing entry) else .error .writeError

/-- A run of successive successful `log_stream_event` calls for one channel:
each call re-reads what the previous call persisted. -/
def appendAll (existing : List EventRecord) (entries : List EventRecord) : List EventRecord :=
  entries.foldl appendTruncate existing

/-- The events the monitor loop reacts to (spec's `TransitionEvent`). -/
inductive TransitionEvent where
  | wentLive (info : StreamInfo)
  | wentOffline (info : StreamInfo)
  | stillLive (info : StreamInfo) (uptime : String)
deriving DecidableEq

/-- The transition decision of the monitor loop body (source lines 244-263)
as a pure function: given the previous `stream_status` entry and the new
snapshot, return the new `stream_status` entry and the event the branch
taken corresponds to. -/
def detect (prev_live : Bool) (info : StreamInfo) (now : Int) :
    Bool × Option TransitionEvent :=
  let now_live := info.is_live
  let event : Option TransitionEvent :=
    if now_live && !prev_live then some (.wentLive info)
    else if !now_live && prev_live then some (.wentOffline info)
    else if now_live then some (.stillLive info (format_uptime info.started_at now))
    else none
  (now_live, event)

/-- The `entry` dict built by `log_stream_event` (source lines 202-208),
with `datetime.utcnow()` passed in as `now`. -/
def mkEntry (now : Int) (info : StreamInfo) (event : String) : EventRecord :=
  { timestamp := now
    event := event
    title := info.title
    game := info.game_name
    viewers := info.viewer_count }

/-- The environment one iteration of the inner `for` body sees for one
channel: the outcome of `check_stream_status` (`none` models a caught
network error returning `None`), the state of that channel's history
file, whether the journal write would succeed, whether the desktop and
Discord notification deliveries would raise (those exceptions are caught
inside the senders), and the current time. -/
structure ChannelCycleInput where
  fetch : Option StreamInfo
  stored : StoredJournal
  writeOk : Bool
  desktopFails : Bool
  webhookFails : Bool
  now : Int
deriving DecidableEq

/-- Observable outcome of one channel's iteration of the loop body. -/
structure CycleResult where
  /-- the channel's `stream_status` entry after the iteration. -/
  state : Bool
  /-- `send_desktop_notification` was called. -/
  desktopCalled : Bool
  /-- `send_discord_webhook` was called. -/
  webhookCalled : Bool
  /-- a sink delivery raised and was caught with a warning. -/
  desktopWarned : Bool
  webhookWarned : Bool
  /-- the record handed to `log_stream_event`, when it was called. -/
  journaled : Option EventRecord
  /-- an exception escaping this channel's processing uncaught. -/
  err : Option JournalError
deriving DecidableEq

/-- One iteration of the inner `for` body (source lines 240-263).  Fetch
errors `continue`; the `now_live and not prev_live` branch calls both
notification senders (which swallow their own failures) and then
`log_stream_event`; the `not now_live and prev_live` branch calls only
`log_stream_event`; a raising `log_stream_event` skips the state update
on line 263 and propagates as `err`. -/
def processChannel (prev_live : Bool) (inp : ChannelCycleInput) : CycleResult :=
  match inp.fetch with
  | none =>
    { state := prev_live, desktopCalled := false, webhookCalled := false
      desktopWarned := false, webhookWarned := false, journaled := none, err := none }
  | some info =>
    let now_live := info.is_live
    if now_live && !prev_live then
      let entry := mkEntry inp.now info "went_live"
      match log_stream_event inp.stored inp.writeOk entry with
      | .ok _ =>
        { state := now_live, desktopCalled := true, webhookCalled := true
          desktopWarned := inp.desktopFails, webhookWarned := inp.webhookFails
          journaled := some entry, err := none }
      | .error e =>
        { state := prev_live, desktopCalled := true, webhookCalled := true
          desktopWarned := inp.desktopFails, webhookWarned := inp.webhookFails
          journaled := some entry, err := some e }
    else if !now_live && prev_live then
      let entry := mkEntry inp.now info "went_offline"
      match log_stream_event inp.stored inp.writeOk entry with
      | .ok _ =>
        { state := now_live, desktopCalled := false, webhookCalled := false
          desktopWarned := false, webhookWarned := false
          journaled := some entry, err := none }
      | .error e =>
        { state := prev_live, desktopCalled := false, webhookCalled := false
          desktopWarned := false, webhookWarned := false
          journaled := some entry, err := some e }
    else
      { state := now_live, desktopCalled := false, webhookCalled := false
        desktopWarned := false, webhookWarned := false, journaled := none, err := none }

/-- `self.stream_status = {}` read through `.get(username, False)`. -/
def emptyStatus : String → Bool := fun _ => false

/-- `for s in self.config["streamers"]: self.stream_status[s] = False`
(source lines 234-235). -/
def initStatus (streamers : List String) : String → Bool :=
  streamers.foldl (fun st s => fun v => if v = s then false else st v) emptyStatus

/-- One round of the inner `for` loop over all channels, in order.  An
uncaught exception from a channel aborts the remaining channels of the
round (there is no per-channel handler inside the loop body). -/
def processRound (status : String → Bool) :
    List (String × ChannelCycleInput) →
      (String → Bool) × List (String × CycleResult) × Option JournalError
  | [] => (status, [], none)
  | (u, inp) :: rest =>
    let r := processChannel (status u) inp
    let status' := fun v => if v = u then r.state else status v
    match r.err with
    | some e => (status', [(u, r)], some e)
    | none =>
      let next := processRound status' rest
      (next.1, (u, r) :: next.2.1, next.2.2)

/-- The `while True` loop (source lines 238-265) over a finite schedule of
rounds: an uncaught exception reaches the outer `except Exception`
handler (source lines 269-270), which logs it and lets
`monitor_streamers` return, terminating the scheduler. -/
def monitorLoop (status : String → Bool) :
    List (List (String × ChannelCycleInput)) →
      (String → Bool) × List (List (String × CycleResult)) × Option JournalError
  | [] => (status, [], none)
  | round :: rest =>
    let this := processRound status round
    match this.2.2 with
    | some e => (this.1, [this.2.1], some e)
    | none =>
      let next := monitorLoop this.1 rest
      (next.1, this.2.1 :: next.2.1, next.2.2)

/-- C1: the detection step realises exactly the four priority rules, and the
next stored state is the snapshot's liveness. -/
theorem detect_matches_transition_rules (prev_live : Bool) (info : StreamInfo) (now : Int) :
    detect prev_live info now =
      (info.is_live,
        match prev_live, info.is_live with
        | false, true => some (.wentLive info)
        | true, false => some (.wentOffline info)
        | true, true => some (.stillLive info (format_uptime info.started_at now))
        | false, false => none) := by
  cases prev_live <;> cases h : info.is_live <;> simp [detect, h]

/-- A live snapshot as built from a non-empty `data` array (source lines
147-157). -/
def kaiLive : StreamInfo :=
  { user_name := "KaiCenat", user_login := "kaicenat", title := "Mafiathon"
    game_name := "Just Chatting", viewer_count := 500, started_at := some 0
    thumbnail_url := "", is_live := true }

/-- The offline snapshot `StreamInfo(username, username, "", "", 0, "", "",
False)` returned when `data` is empty (source line 145). -/
def kaiOffline : StreamInfo :=
  { user_name := "kaicenat", user_login := "kaicenat", title := ""
    game_name := "", viewer_count := 0, started_at := none
    thumbnail_url := "", is_live := false }

/-- C2 counterexample: a channel that was live and is observed offline
produces the WentOffline event, yet neither notification sender is
called — the senders are called only in the went-live branch. -/
theorem wentOffline_no_sink_dispatch_cx :
    (detect true kaiOffline 0).2 = some (.wentOffline kaiOffline) ∧
    (processChannel true ⟨some kaiOffline, .missing, true, false, false, 0⟩).desktopCalled
      = false ∧
    (processChannel true ⟨some kaiOffline, .missing, true, false, false, 0⟩).webhookCalled
      = false := by
  refine ⟨by decide, by decide, by decide⟩

/-- C2 amended: the notification senders are invoked exactly on the
went-live edge (`isLive` and not previously live); neither a WentOffline
nor a StillLive cycle invokes any sink. -/
theorem sink_dispatch_only_on_live_edge (prev_live : Bool) (inp : ChannelCycleInput) :
    (processChannel prev_live inp).desktopCalled =
      (match inp.fetch with
       | none => false
       | some info => info.is_live && !prev_live) ∧
    (processChannel prev_live inp).webhookCalled =
      (match inp.fetch with
       | none => false
       | some info => info.is_live && !prev_live) := by
  rcases inp with ⟨fetch, stored, writeOk, dF, wF, now⟩
  cases fetch with
  | none => exact ⟨rfl, rfl⟩
  | some info =>
    cases h : info.is_live <;> cases prev_live <;>
      simp [processChannel, h] <;> (try split) <;> simp

/-- Two poll rounds for one channel: live with title "Mafiathon" and 500
viewers, then offline. -/
def liveThenOfflineRounds : List (List (String × ChannelCycleInput)) :=
  [ [("kaicenat", ⟨some kaiLive, .missing, true, false, false, 0⟩)],
    [("kaicenat",
      ⟨some kaiOffline, .valid [mkEntry 0 kaiLive "went_live"], true, false, false, 5400⟩)] ]

/-- C3 counterexample: after a live observation with title "Mafiathon" and
500 viewers, the offline cycle journals the fields of the current
offline snapshot (empty title/game, 0 viewers), not the previous live
snapshot's fields — no previous snapshot is stored at all (the state is
a single boolean). -/
theorem wentOffline_payload_is_current_snapshot_cx :
    (monitorLoop (initStatus ["kaicenat"]) liveThenOfflineRounds).2.1 =
      [ [("kaicenat",
          { state := true, desktopCalled := true, webhookCalled := true
            desktopWarned := false, webhookWarned := false
            journaled := some (mkEntry 0 kaiLive "went_live"), err := none })],
        [("kaicenat",
          { state := false, desktopCalled := false, webhookCalled := false
            desktopWarned := false, webhookWarned := false
            journaled := some
              { timestamp := 5400, event := "went_offline", title := "", game := ""
                viewers := 0 }
            err := none })] ] ∧
    ("" : String) ≠ "Mafiathon" ∧ (0 : Nat) ≠ 500 := by
  refine ⟨by decide, by decide, by decide⟩

/-- C3 amended: the record journaled on a live-to-offline transition is
built from the current (offline) snapshot: empty title and game and the
offline viewer count, exactly `mkEntry` applied to the fetched
snapshot. -/
theorem wentOffline_journal_entry_from_offline_snapshot (prev_live : Bool)
    (inp : ChannelCycleInput) (info : StreamInfo) (hf : inp.fetch = some info)
    (hl : info.is_live = false) (hp : prev_live = true) :
    (processChannel prev_live inp).journaled = some (mkEntry inp.now info "went_offline") := by
  rcases inp with ⟨fetch, stored, writeOk, dF, wF, now⟩
  cases hf
  subst hp
  cases hlog : log_stream_event stored writeOk (mkEntry now info "went_offline") <;>
    simp [processChannel, hl, hlog]

/-- Closed instance of the amended C3 theorem at a concrete offline cycle. -/
theorem wentOffline_journal_entry_witness :
    (processChannel true ⟨some kaiOffline, .missing, true, false, false, 7⟩).journaled
      = some (mkEntry 7 kaiOffline "went_offline") :=
  wentOffline_journal_entry_from_offline_snapshot true _ kaiOffline rfl rfl rfl

/-- C5 counterexample: a snapshot whose `started_at` lies 30 seconds in the
future (clock skew) renders as "-1h 59m" — a negative duration, not a
clamp to zero. -/
theorem format_uptime_negative_not_clamped_cx :
    format_uptime (some 30) 0 = "-1h 59m" ∧ format_uptime (some 30) 0 ≠ "0m" := by
  refine ⟨by decide, by decide⟩

/-- C5 amended: absent `started_at` renders "0m"; for a non-negative
difference the rendering is whole hours and remaining whole minutes,
minutes-only when the hour part is zero, and 90 minutes renders
"1h 30m"; but a negative difference is not clamped. -/
theorem format_uptime_renders_hours_minutes (t now : Int) :
    format_uptime none now = "0m" ∧
    (t ≤ now →
      format_uptime (some t) now =
        (let tm : Nat := (now - t).toNat / 60
         if tm / 60 = 0 then toString (tm % 60) ++ "m"
         else toString (tm / 60) ++ "h " ++ toString (tm % 60) ++ "m")) ∧
    format_uptime (some t) (t + 5400) = "1h 30m" := by
  refine ⟨rfl, ?_, ?_⟩
  · intro hle
    obtain ⟨n, hn⟩ : ∃ n : ℕ, now - t = (n : ℤ) :=
      ⟨(now - t).toNat, by simp [Int.toNat_of_nonneg (by omega : (0:Int) ≤ now - t)]⟩
    simp only [format_uptime, hn]
    have h1 : ((n : ℤ)).fdiv 60 = ((n / 60 : ℕ) : ℤ) := by
      exact_mod_cast (Int.ofNat_fdiv n 60).symm
    have h2 : (((n / 60 : ℕ) : ℤ)).fdiv 60 = ((n / 60 / 60 : ℕ) : ℤ) := by
      exact_mod_cast (Int.ofNat_fdiv (n / 60) 60).symm
    have h3 : (((n / 60 : ℕ) : ℤ)).fmod 60 = ((n / 60 % 60 : ℕ) : ℤ) := by
      exact_mod_cast (Int.ofNat_fmod (n / 60) 60).symm
    have h4 : ((n : ℤ)).toNat = n := Int.toNat_natCast n
    rw [h1, h2, h3, h4]
    have hs : ∀ k : ℕ, toString ((k : ℤ)) = toString k := fun _ => rfl
    simp only [hs, ne_eq, Nat.cast_eq_zero]
    by_cases hz : n / 60 / 60 = 0
    · simp [hz]
    · simp [hz]
  · have h5400 : t + 5400 - t = (5400 : Int) := by ring
    simp only [format_uptime, h5400]
    decide

/-- Closed instance of the amended C5 theorem at 90 minutes of uptime. -/
theorem format_uptime_renders_witness :
    format_uptime (some 0) 5400 =
      (let tm : Nat := ((5400 : Int) - 0).toNat / 60
       if tm / 60 = 0 then toString (tm % 60) ++ "m"
       else toString (tm / 60) ++ "h " ++ toString (tm % 60) ++ "m") :=
  (format_uptime_renders_hours_minutes 0 5400).2.1 (by decide)

/-- `existing[-200:]` is exactly `List.rtake _ 200`. -/
theorem appendTruncate_eq_rtake (xs : List EventRecord) (e : EventRecord) :
    appendTruncate xs e = (xs ++ [e]).rtake 200 := rfl

theorem appendTruncate_length_le (xs : List EventRecord) (e : EventRecord) :
    (appendTruncate xs e).length ≤ 200 := by
  simp only [appendTruncate, List.length_drop, List.length_append, List.length_cons,
    List.length_nil]
  omega

theorem take_append_take {α : Type} (n : ℕ) (c d : List α) :
    (c ++ d.take n).take n = (c ++ d).take n := by
  rw [List.take_append_eq_append_take, List.take_append_eq_append_take, List.take_take,
    Nat.min_eq_left (Nat.sub_le _ _)]

theorem rtake_rtake_append {α : Type} (n : ℕ) (a b : List α) :
    (a.rtake n ++ b).rtake n = (a ++ b).rtake n := by
  simp only [List.rtake_eq_reverse_take_reverse, List.reverse_append, List.reverse_reverse]
  rw [take_append_take]

/-- Successive appends keep exactly the most recent 200 records: a run of
appends is the tail-end truncation of the concatenation. -/
theorem appendAll_eq_rtake (entries : List EventRecord) (xs : List EventRecord)
    (hxs : xs.length ≤ 200) :
    appendAll xs entries = (xs ++ entries).rtake 200 := by
  induction entries generalizing xs with
  | nil =>
    have h0 : xs.length - 200 = 0 := Nat.sub_eq_zero_of_le hxs
    simp [appendAll, List.rtake, h0]
  | cons e es ih =>
    have hstep : appendAll xs (e :: es) = appendAll (appendTruncate xs e) es := rfl
    rw [hstep, ih (appendTruncate xs e) (appendTruncate_length_le xs e),
      appendTruncate_eq_rtake, rtake_rtake_append]
    simp [List.append_assoc]

/-- C4 counterexample: with "capacity 100" (a value inside the claim's
default range) and k = 1, appending 101 records leaves 101 stored
records, not 100 — the truncation bound is the hard-coded 200 of
`existing[-200:]`, there is no configurable capacity. -/
theorem journal_capacity_not_configurable_cx :
    (appendAll [] (List.replicate 101 (mkEntry 0 kaiLive "went_live"))).length = 101 ∧
    (101 : Nat) ≠ 100 := by
  refine ⟨by decide, by decide⟩

/-- C4 amended: the capacity is the fixed constant 200; appending 200 + k
records (k ≥ 1) into an empty journal leaves exactly the 200 most
recent records in their original relative order. -/
theorem journal_capacity_two_hundred (entries : List EventRecord) (k : ℕ)
    (hk : 1 ≤ k) (hlen : entries.length = 200 + k) :
    appendAll [] entries = entries.drop k ∧ (appendAll [] entries).length = 200 := by
  have h := appendAll_eq_rtake entries [] (by simp)
  simp only [List.nil_append] at h
  have hsub : entries.length - 200 = k := by omega
  constructor
  · rw [h]
    simp [List.rtake, hsub]
  · rw [h]
    simp only [List.rtake, List.length_drop]
    omega

/-- Closed instance of the amended C4 theorem: 201 appends leave the last
200 records. -/
theorem journal_capacity_witness :
    appendAll [] (List.replicate 201 (mkEntry 0 kaiLive "went_live"))
      = (List.replicate 201 (mkEntry 0 kaiLive "went_live")).drop 1 :=
  (journal_capacity_two_hundred (List.replicate 201 (mkEntry 0 kaiLive "went_live")) 1
    (by decide) (by simp)).1

/-- C10: every successful append stores the new record as the last element,
keeps at most 200 records, and restores the 200 bound even when the
pre-existing file held 200 or more records. -/
theorem journal_append_newest_last_bounded (existing : List EventRecord)
    (entry : EventRecord) :
    (appendTruncate existing entry).getLast? = some entry ∧
    (appendTruncate existing entry).length ≤ 200 ∧
    (200 ≤ existing.length → (appendTruncate existing entry).length = 200) := by
  refine ⟨?_, appendTruncate_length_le existing entry, ?_⟩
  · rw [appendTruncate_eq_rtake, List.rtake_eq_reverse_take_reverse, List.getLast?_reverse]
    simp
  · intro hge
    simp only [appendTruncate, List.length_drop, List.length_append, List.length_cons,
      List.length_nil]
    omega

/-- Closed instance of the C10 theorem on a pre-existing file of 250
records. -/
theorem journal_append_newest_last_witness :
    (appendTruncate (List.replicate 250 (mkEntry 0 kaiLive "went_live"))
        (mkEntry 1 kaiOffline "went_offline")).length = 200 :=
  (journal_append_newest_last_bounded (List.replicate 250 (mkEntry 0 kaiLive "went_live"))
    (mkEntry 1 kaiOffline "went_offline")).2.2 (by simp)

/-- C6: a failed fetch (`check_stream_status` returning `None`) leaves the
channel's state untouched, produces no sink call and no journal entry,
and the rest of the round proceeds exactly as if that channel had not
been in it. -/
theorem fetch_failure_leaves_state_and_round_intact (st : String → Bool) (u : String)
    (inp : ChannelCycleInput) (rest : List (String × ChannelCycleInput))
    (h : inp.fetch = none) :
    processChannel (st u) inp =
      { state := st u, desktopCalled := false, webhookCalled := false
        desktopWarned := false, webhookWarned := false, journaled := none, err := none } ∧
    processRound st ((u, inp) :: rest) =
      ((processRound st rest).1,
        (u, { state := st u, desktopCalled := false, webhookCalled := false
              desktopWarned := false, webhookWarned := false
              journaled := none, err := none }) :: (processRound st rest).2.1,
        (processRound st rest).2.2) := by
  have hpc : processChannel (st u) inp =
      { state := st u, desktopCalled := false, webhookCalled := false
        desktopWarned := false, webhookWarned := false, journaled := none, err := none } := by
    rcases inp with ⟨fetch, stored, writeOk, dF, wF, now⟩
    cases h
    rfl
  refine ⟨hpc, ?_⟩
  have hst : (fun v => if v = u then st u else st v) = st := by
    funext v
    by_cases hv : v = u <;> simp [hv]
  simp only [processRound, hpc]
  rw [hst]

/-- Closed instance of the C6 theorem: a fetch-failed channel contributes
no state change and no effects. -/
theorem fetch_failure_witness :
    processChannel false ⟨none, .missing, true, false, false, 0⟩ =
      { state := false, desktopCalled := false, webhookCalled := false
        desktopWarned := false, webhookWarned := false, journaled := none, err := none } :=
  (fetch_failure_leaves_state_and_round_intact (fun _ => false) "b"
    ⟨none, .missing, true, false, false, 0⟩
    [("c", ⟨some kaiLive, .missing, true, false, false, 0⟩)] rfl).1

/-- C7 counterexample: channel "a" goes live but its journal write fails;
the uncaught exception aborts channel "b" in the same round and
terminates the loop — the second scheduled round never runs. -/
theorem journal_error_halts_loop_cx :
    (monitorLoop (initStatus ["a", "b"])
        [[("a", ⟨some kaiLive, .missing, false, false, false, 0⟩),
          ("b", ⟨some kaiLive, .missing, true, false, false, 0⟩)],
         [("b", ⟨some kaiLive, .missing, true, false, false, 0⟩)]]).2 =
      ([[("a", { state := false, desktopCalled := true, webhookCalled := true
                 desktopWarned := false, webhookWarned := false
                 journaled := some (mkEntry 0 kaiLive "went_live")
                 err := some .writeError })]],
       some .writeError) := by decide

/-- Sink delivery failures are caught inside the senders: they change
neither the uncaught-error outcome nor the stored state of a cycle. -/
theorem processChannel_sink_flags_irrelevant (prev : Bool) (fetch : Option StreamInfo)
    (stored : StoredJournal) (writeOk dF wF dF' wF' : Bool) (now : Int) :
    (processChannel prev ⟨fetch, stored, writeOk, dF', wF', now⟩).err
      = (processChannel prev ⟨fetch, stored, writeOk, dF, wF, now⟩).err ∧
    (processChannel prev ⟨fetch, stored, writeOk, dF', wF', now⟩).state
      = (processChannel prev ⟨fetch, stored, writeOk, dF, wF, now⟩).state := by
  cases fetch with
  | none => exact ⟨rfl, rfl⟩
  | some info =>
    cases hl : info.is_live with
    | true =>
      cases prev with
      | false =>
        cases hlog : log_stream_event stored writeOk (mkEntry now info "went_live") <;>
          simp [processChannel, hl, hlog]
      | true => simp [processChannel, hl]
    | false =>
      cases prev with
      | true =>
        cases hlog : log_stream_event stored writeOk (mkEntry now info "went_offline") <;>
          simp [processChannel, hl, hlog]
      | false => simp [processChannel, hl]

/-- C7 amended: a journal error from one channel aborts the remaining
channels of the round and terminates the loop (it is only caught by the
top-level handler that ends `monitor_streamers`); sink delivery
failures, by contrast, are absorbed inside the cycle. -/
theorem journal_error_halts_sink_errors_do_not (st : String → Bool) (u : String)
    (inp : ChannelCycleInput) (rest : List (String × ChannelCycleInput))
    (round : List (String × ChannelCycleInput))
    (rounds : List (List (String × ChannelCycleInput))) (e : JournalError) :
    ((processChannel (st u) inp).err = some e →
      processRound st ((u, inp) :: rest) =
        ((fun v => if v = u then (processChannel (st u) inp).state else st v),
          [(u, processChannel (st u) inp)], some e)) ∧
    ((processRound st round).2.2 = some e →
      monitorLoop st (round :: rounds) =
        ((processRound st round).1, [(processRound st round).2.1], some e)) ∧
    (∀ b1 b2 : Bool,
      (processChannel (st u) { inp with desktopFails := b1, webhookFails := b2 }).err
          = (processChannel (st u) inp).err ∧
      (processChannel (st u) { inp with desktopFails := b1, webhookFails := b2 }).state
          = (processChannel (st u) inp).state) := by
  refine ⟨?_, ?_, ?_⟩
  · intro h
    simp only [processRound, h]
  · intro h
    simp only [monitorLoop, h]
  · intro b1 b2
    rcases inp with ⟨fetch, stored, writeOk, dF, wF, now⟩
    exact processChannel_sink_flags_irrelevant (st u) fetch stored writeOk dF wF b1 b2 now

/-- Closed instance of the amended C7 theorem: a failing journal write ends
the loop with the write error. -/
theorem journal_error_halts_witness :
    monitorLoop (initStatus ["a"])
        [[("a", ⟨some kaiLive, .missing, false, false, false, 0⟩)]] =
      ((processRound (initStatus ["a"])
          [("a", ⟨some kaiLive, .missing, false, false, false, 0⟩)]).1,
        [(processRound (initStatus ["a"])
          [("a", ⟨some kaiLive, .missing, false, false, false, 0⟩)]).2.1],
        some .writeError) :=
  (journal_error_halts_sink_errors_do_not (initStatus ["a"]) "a"
      ⟨some kaiLive, .missing, false, false, false, 0⟩ []
      [("a", ⟨some kaiLive, .missing, false, false, false, 0⟩)] [] .writeError).2.1
    (by decide)

/-- C8 counterexample: an OS-level unreadable file, or a file holding valid
JSON that is not a list, makes `log_stream_event` fail — only a missing
file and a JSON decode error start fresh. -/
theorem journal_bad_store_fails_append_cx :
    log_stream_event .osError true (mkEntry 0 kaiLive "went_live") = .error .readError ∧
    log_stream_event .wrongShape true (mkEntry 0 kaiLive "went_live") = .error .shapeError := by
  exact ⟨rfl, rfl⟩

/-- C8 amended: a missing history file or one whose contents raise
`json.JSONDecodeError` is treated as an empty history and the append
completes, persisting exactly the new record. -/
theorem journal_missing_or_decode_error_starts_fresh (entry : EventRecord) :
    log_stream_event .missing true entry = .ok [entry] ∧
    log_stream_event .decodeError true entry = .ok [entry] := by
  exact ⟨rfl, rfl⟩

/-- C9: every configured channel starts as not live; a cycle that completes
for a fetched snapshot stores exactly that snapshot's liveness; a cycle
with no snapshot keeps the previous value; and the round updates the
status map with the cycle's resulting state. -/
theorem stream_status_tracks_last_snapshot :
    (∀ (streamers : List String) (u : String), initStatus streamers u = false) ∧
    (∀ (prev : Bool) (inp : ChannelCycleInput) (info : StreamInfo),
      inp.fetch = some info → (processChannel prev inp).err = none →
      (processChannel prev inp).state = info.is_live) ∧
    (∀ (prev : Bool) (inp : ChannelCycleInput),
      inp.fetch = none → (processChannel prev inp).state = prev) ∧
    (∀ (st : String → Bool) (u : String) (inp : ChannelCycleInput),
      (processRound st [(u, inp)]).1 u = (processChannel (st u) inp).state) := by
  refine ⟨?_, ?_, ?_, ?_⟩
  · intro streamers
    have aux : ∀ (l : List String) (st : String → Bool), (∀ v, st v = false) →
        ∀ u, (l.foldl (fun st s => fun v => if v = s then false else st v) st) u = false := by
      intro l
      induction l with
      | nil => intro st h u; exact h u
      | cons s l ih =>
        intro st h u
        exact ih _ (fun v => by by_cases hv : v = s <;> simp [hv, h]) u
    exact aux streamers emptyStatus (fun _ => rfl)
  · intro prev inp info hf herr
    rcases inp with ⟨fetch, stored, writeOk, dF, wF, now⟩
    cases hf
    cases hl : info.is_live with
    | true =>
      cases prev with
      | false =>
        cases hlog : log_stream_event stored writeOk (mkEntry now info "went_live") <;>
          simp [processChannel, hl, hlog] at herr ⊢
      | true => simp [processChannel, hl]
    | false =>
      cases prev with
      | true =>
        cases hlog : log_stream_event stored writeOk (mkEntry now info "went_offline") <;>
          simp [processChannel, hl, hlog] at herr ⊢
      | false => simp [processChannel, hl]
  · intro prev inp h
    rcases inp with ⟨fetch, stored, writeOk, dF, wF, now⟩
    cases h
    rfl
  · intro st u inp
    simp only [processRound]
    cases herr : (processChannel (st u) inp).err <;> simp [herr]

/-- Closed instance of the C9 theorem: a completed live cycle stores the
snapshot's liveness. -/
theorem stream_status_tracks_witness :
    (processChannel false ⟨some kaiLive, .missing, true, false, false, 0⟩).state
      = kaiLive.is_live :=
  stream_status_tracks_last_snapshot.2.1 false
    ⟨some kaiLive, .missing, true, false, false, 0⟩ kaiLive rfl (by decide)

end TwitchChecker
